import Mathlib

/-!
Verification of the BeamSafe reinforced-concrete design engine
(src/App.tsx, function calculateDesign in each UI variant).

The engine is pure numeric code over IEEE doubles; it is embedded here
over the real numbers: JavaScript Math.sqrt becomes Real.sqrt,
Math.ceil becomes Int.ceil, Math.max / Math.min become max / min, and
the SAFE / UNSAFE verdict strings are kept as Lean String literals.
A missing or non-numeric input (parseFloat yielding NaN) is modelled as
Option.none at the parse boundary; the JavaScript falsy-or idiom
value-or-default is modelled by jsOr below.
-/

namespace BeamSafe

/-- Engineering constants of src/App.tsx lines 645-651. -/
noncomputable def CONCRETE_DENSITY : ℝ := 24

noncomputable def SLAB_DL_UNIT : ℝ := 4.0

noncomputable def WALL_DL_UNIT : ℝ := 2.6

noncomputable def FY : ℝ := 460

noncomputable def COVER : ℝ := 25

noncomputable def GAMMA_G : ℝ := 1.4

noncomputable def GAMMA_Q : ℝ := 1.6

/-- The moment-capacity factor K of the Section Design Kernel:
K = M*1e6 / (b * d^2 * fcu)  (src/App.tsx line 768). -/
noncomputable def Kfactor (M b d fcu : ℝ) : ℝ :=
  M * 1e6 / (b * d ^ 2 * fcu)

/-- The flexural verdict of the kernel:
status = K <= 0.156 then SAFE else UNSAFE  (src/App.tsx line 771). -/
noncomputable def flexStatus (M b d fcu : ℝ) : String :=
  if Kfactor M b d fcu ≤ 0.156 then "SAFE" else "UNSAFE"

/-- Main-bar step table on the required steel area
(src/App.tsx lines 783-787). -/
noncomputable def selectMainBar (a : ℝ) : String :=
  if a < 226 then "2T12 Bottom"
  else if a < 402 then "2T16 Bottom"
  else if a < 603 then "3T16 Bottom"
  else if a < 942 then "3T20 Bottom"
  else "4T20 Bottom"

/-- Result record of one Section Design Kernel run: overall verdict,
main-bar callout, required steel area and shear-link callout. -/
structure SectionResult where
  status : String
  mainBar : String
  asRequired : ℝ
  shearLinks : String

/-- The Section Design Kernel (src/App.tsx lines 768-793): flexural
verdict first; only inside the SAFE branch the lever arm, steel area,
bar selection and the shear check run, and the hard shear failure
v > 0.8*sqrt(fcu) overrides the verdict to UNSAFE.  In the UNSAFE
flexural branch every field keeps its initial default. -/
noncomputable def sectionCheck (M V b h d fcu : ℝ) : SectionResult :=
  if flexStatus M b d fcu = "SAFE" then
    { status :=
        if V * 1000 / (b * d) > 0.8 * Real.sqrt fcu then "UNSAFE" else "SAFE"
      mainBar :=
        selectMainBar
          (max (M * 1e6 /
              (0.95 * FY *
                min (d * (0.5 + Real.sqrt (0.25 - Kfactor M b d fcu / 0.9)))
                  (0.95 * d)))
            (0.0013 * b * h))
      asRequired :=
        max (M * 1e6 /
            (0.95 * FY *
              min (d * (0.5 + Real.sqrt (0.25 - Kfactor M b d fcu / 0.9)))
                (0.95 * d)))
          (0.0013 * b * h)
      shearLinks :=
        if V * 1000 / (b * d) > 0.4 then "R8 @ 175mm" else "R6 @ 200mm" }
  else
    { status := "UNSAFE"
      mainBar := "None"
      asRequired := 0
      shearLinks := "R6-250" }

/-- JavaScript falsy-or: x || dflt keeps x unless it parsed to NaN
(modelled none) or to 0. -/
noncomputable def jsOr (x : Option ℝ) (dflt : ℝ) : ℝ :=
  match x with
  | none => dflt
  | some v => if v = 0 then dflt else v

/-- Auto-derived beam depth: max(300, ceil((L*1000/14)/25)*25)
(src/App.tsx line 755). -/
noncomputable def autoDepth (L : ℝ) : ℝ :=
  max 300 ((⌈(L * 1000 / 14) / 25⌉ : ℝ) * 25)

/-- Auto-derived beam width: max(150, ceil((h/2.5)/25)*25)
(src/App.tsx line 756). -/
noncomputable def autoWidth (h : ℝ) : ℝ :=
  max 150 ((⌈(h / 2.5) / 25⌉ : ℝ) * 25)

/-- Raw inputs of the Beam Stage after parseFloat: span, width and
depth may be missing or non-numeric (none); the remaining fields have
defaults applied by the caller. -/
structure BeamInputs where
  span : Option ℝ
  width : Option ℝ
  depth : Option ℝ
  tributaryWidth : ℝ
  wallHeight : ℝ
  liveLoad : ℝ
  fcu : ℝ

/-- Beam self-weight (b/1000)*(h/1000)*24  (src/App.tsx line 760). -/
noncomputable def selfWeight (b h : ℝ) : ℝ :=
  (b / 1000) * (h / 1000) * CONCRETE_DENSITY

/-- Dead load: self-weight plus slab and wall shares
(src/App.tsx line 761). -/
noncomputable def deadLoad (b h trib wallH : ℝ) : ℝ :=
  selfWeight b h + SLAB_DL_UNIT * trib + WALL_DL_UNIT * wallH

/-- Factored ultimate UDL 1.4*dead + 1.6*live
(src/App.tsx lines 762-763). -/
noncomputable def totalUDL (b h trib wallH ll : ℝ) : ℝ :=
  GAMMA_G * deadLoad b h trib wallH + GAMMA_Q * (ll * trib)

/-- Midspan moment of the simply supported beam M = w*L*L/8
(src/App.tsx line 764). -/
noncomputable def midspanMoment (w L : ℝ) : ℝ := w * L * L / 8

/-- End reaction V = w*L/2  (src/App.tsx line 765). -/
noncomputable def endReaction (w L : ℝ) : ℝ := w * L / 2

/-- Effective depth d = h - cover - 8 - 10  (src/App.tsx line 767). -/
noncomputable def effectiveDepth (h : ℝ) : ℝ := h - COVER - 8 - 10

/-- Overall depth used by the Beam Stage: the parsed depth or the
auto-derived one (src/App.tsx lines 752-757). -/
noncomputable def beamH (inp : BeamInputs) (L : ℝ) : ℝ :=
  jsOr inp.depth (autoDepth L)

/-- Width used by the Beam Stage: the parsed width or the auto-derived
one from the (already defaulted) depth (src/App.tsx lines 751-757). -/
noncomputable def beamB (inp : BeamInputs) (L : ℝ) : ℝ :=
  jsOr inp.width (autoWidth (beamH inp L))

/-- Ultimate UDL of the Beam Stage for a given span. -/
noncomputable def beamUDL (inp : BeamInputs) (L : ℝ) : ℝ :=
  totalUDL (beamB inp L) (beamH inp L) inp.tributaryWidth inp.wallHeight
    inp.liveLoad

/-- The Beam Stage result record: resolved geometry, internal forces
and the kernel output. -/
structure BeamResult where
  width : ℝ
  depth : ℝ
  moment : ℝ
  reaction : ℝ
  check : SectionResult

/-- The Beam Stage (src/App.tsx lines 731-793): a missing, NaN, zero
or negative span yields no result at all; otherwise geometry is
resolved, loads and internal forces computed and the Section Design
Kernel run.  Total function: nothing is ever thrown. -/
noncomputable def beamDesign (inp : BeamInputs) : Option BeamResult :=
  match inp.span with
  | none => none
  | some L =>
    if L ≤ 0 then none
    else
      some
        { width := beamB inp L
          depth := beamH inp L
          moment := midspanMoment (beamUDL inp L) L
          reaction := endReaction (beamUDL inp L) L
          check :=
            sectionCheck (midspanMoment (beamUDL inp L) L)
              (endReaction (beamUDL inp L) L) (beamB inp L) (beamH inp L)
              (effectiveDepth (beamH inp L)) inp.fcu }

/-- Fixed reference column size 200 mm (src/App.tsx line 831). -/
noncomputable def colSize : ℝ := 200

/-- Gross column area ac = colSize*colSize (src/App.tsx line 832). -/
noncomputable def colAc : ℝ := colSize * colSize

/-- Longitudinal steel area asc = ac*0.008 (src/App.tsx line 833). -/
noncomputable def colAsc : ℝ := colAc * 0.008

/-- Simplified-mode column capacity
(0.35*fcu*ac + 0.67*FY*asc)/1000  (src/App.tsx line 834). -/
noncomputable def colCapacity (fcu : ℝ) : ℝ :=
  (0.35 * fcu * colAc + 0.67 * FY * colAsc) / 1000

/-- Column verdict: SAFE iff axialLoad < capacity, strict
(src/App.tsx line 835). -/
noncomputable def colStatus (axialLoad fcu : ℝ) : String :=
  if axialLoad < colCapacity fcu then "SAFE" else "UNSAFE"

/-- Required footing area = load/soil (src/App.tsx line 127). -/
noncomputable def requiredFootingArea (load soil : ℝ) : ℝ := load / soil

/-- Square footing side, rounded up to the nearest 0.1 m:
ceil(sqrt(area)*10)/10  (src/App.tsx line 128). -/
noncomputable def footingSize (load soil : ℝ) : ℝ :=
  (⌈Real.sqrt (requiredFootingArea load soil) * 10⌉ : ℝ) / 10

/-- Recomputed bearing pressure load/(side*side)
(src/App.tsx line 131). -/
noncomputable def actualBearingPressure (load soil : ℝ) : ℝ :=
  load / (footingSize load soil * footingSize load soil)

/-- Footing verdict: SAFE iff pressure <= soil capacity
(src/App.tsx line 132). -/
noncomputable def footingStatus (load soil : ℝ) : String :=
  if actualBearingPressure load soil ≤ soil then "SAFE" else "UNSAFE"

/-- The concrete Beam Stage scenario of spec section 8: span 4.0 m,
width and depth omitted, tributary width 3.0 m, wall height 3.0 m,
live load 1.5 kPa, fcu 25. -/
noncomputable def scenario : BeamInputs :=
  { span := some 4
    width := none
    depth := none
    tributaryWidth := 3
    wallHeight := 3
    liveLoad := 1.5
    fcu := 25 }

/-! ## Theorems -/

/-- Claim C1: for positive M, b, d, fcu the kernel declares the
flexural verdict SAFE iff K = M*1e6/(b*d^2*fcu) is at most 0.156, and
K exactly 0.156 yields SAFE (inclusive boundary). -/
theorem flexural_verdict_iff_K_le (M b d fcu : ℝ) (hM : 0 < M)
    (hb : 0 < b) (hd : 0 < d) (hfcu : 0 < fcu) :
    (flexStatus M b d fcu = "SAFE" ↔ Kfactor M b d fcu ≤ 0.156) ∧
    (Kfactor M b d fcu = 0.156 → flexStatus M b d fcu = "SAFE") := by
  constructor
  · constructor
    · intro hs
      by_contra hK
      unfold flexStatus at hs
      rw [if_neg hK] at hs
      exact absurd hs (by decide)
    · intro hK
      unfold flexStatus
      rw [if_pos hK]
  · intro hK
    unfold flexStatus
    rw [if_pos (le_of_eq hK)]

/-- Witness for C1 at M = 0.156, b = 1000000, d = 1, fcu = 1, where K
is exactly 0.156. -/
theorem flexural_verdict_iff_K_le_witness :
    (flexStatus 0.156 1000000 1 1 = "SAFE" ↔
      Kfactor 0.156 1000000 1 1 ≤ 0.156) ∧
    (Kfactor 0.156 1000000 1 1 = 0.156 →
      flexStatus 0.156 1000000 1 1 = "SAFE") :=
  flexural_verdict_iff_K_le 0.156 1000000 1 1 (by norm_num) (by norm_num)
    (by norm_num) (by norm_num)

/-- Claim C2: when flexure passes (K at most 0.156) and the nominal
shear stress v = V*1000/(b*d) exceeds 0.8*sqrt(fcu), the overall
kernel verdict is UNSAFE even though the flexural verdict was SAFE;
and when the flexural verdict is UNSAFE the overall verdict is UNSAFE
regardless of shear, so the override runs only after a flexural SAFE,
never instead of it. -/
theorem shear_override_forces_unsafe (M V b h d fcu : ℝ)
    (hK : Kfactor M b d fcu ≤ 0.156)
    (hv : V * 1000 / (b * d) > 0.8 * Real.sqrt fcu) :
    (sectionCheck M V b h d fcu).status = "UNSAFE" ∧
    flexStatus M b d fcu = "SAFE" ∧
    (∀ M2 V2 b2 h2 d2 fcu2 : ℝ, flexStatus M2 b2 d2 fcu2 = "UNSAFE" →
      (sectionCheck M2 V2 b2 h2 d2 fcu2).status = "UNSAFE") := by
  have hflex : flexStatus M b d fcu = "SAFE" := by
    unfold flexStatus
    rw [if_pos hK]
  refine ⟨?_, hflex, ?_⟩
  · unfold sectionCheck
    rw [if_pos hflex]
    exact if_pos hv
  · intro M2 V2 b2 h2 d2 fcu2 h2f
    have hne : flexStatus M2 b2 d2 fcu2 ≠ "SAFE" := by
      rw [h2f]
      decide
    unfold sectionCheck
    rw [if_neg hne]

/-- Witness for C2 at M = 1, V = 100, b = 100, h = 120, d = 100,
fcu = 25: K = 0.04 passes flexure while v = 10 exceeds
0.8*sqrt(25) = 4. -/
theorem shear_override_forces_unsafe_witness :
    (sectionCheck 1 100 100 120 100 25).status = "UNSAFE" ∧
    flexStatus 1 100 100 25 = "SAFE" ∧
    (∀ M2 V2 b2 h2 d2 fcu2 : ℝ, flexStatus M2 b2 d2 fcu2 = "UNSAFE" →
      (sectionCheck M2 V2 b2 h2 d2 fcu2).status = "UNSAFE") :=
  shear_override_forces_unsafe 1 100 100 120 100 25
    (by
      unfold Kfactor
      norm_num)
    (by
      have h5 : Real.sqrt 25 = (5 : ℝ) := by
        rw [show (25 : ℝ) = 5 ^ 2 by norm_num]
        exact Real.sqrt_sq (by norm_num)
      rw [h5]
      norm_num)

/-- Claim C3: for every SAFE section the main-bar callout is the step
table applied to the required steel area, the table being As<226 to
2T12, As<402 to 2T16, As<603 to 3T16, As<942 to 3T20, else 4T20 (all
Bottom), with inclusive lower boundaries; in particular As = 226
selects 2T16 Bottom. -/
theorem mainBar_step_table :
    (∀ M V b h d fcu : ℝ, (sectionCheck M V b h d fcu).status = "SAFE" →
      (sectionCheck M V b h d fcu).mainBar =
        selectMainBar (sectionCheck M V b h d fcu).asRequired) ∧
    (∀ a : ℝ,
      (a < 226 → selectMainBar a = "2T12 Bottom") ∧
      (226 ≤ a → a < 402 → selectMainBar a = "2T16 Bottom") ∧
      (402 ≤ a → a < 603 → selectMainBar a = "3T16 Bottom") ∧
      (603 ≤ a → a < 942 → selectMainBar a = "3T20 Bottom") ∧
      (942 ≤ a → selectMainBar a = "4T20 Bottom")) ∧
    selectMainBar 226 = "2T16 Bottom" := by
  refine ⟨?_, ?_, ?_⟩
  · intro M V b h d fcu hsafe
    by_cases hf : flexStatus M b d fcu = "SAFE"
    · unfold sectionCheck
      rw [if_pos hf]
    · unfold sectionCheck at hsafe
      rw [if_neg hf] at hsafe
      exact absurd hsafe (by decide)
  · intro a
    refine ⟨?_, ?_, ?_, ?_, ?_⟩
    · intro h1
      unfold selectMainBar
      rw [if_pos h1]
    · intro h1 h2
      unfold selectMainBar
      rw [if_neg (not_lt.mpr h1), if_pos h2]
    · intro h1 h2
      unfold selectMainBar
      rw [if_neg (not_lt.mpr (le_trans (by norm_num) h1)),
        if_neg (not_lt.mpr h1), if_pos h2]
    · intro h1 h2
      unfold selectMainBar
      rw [if_neg (not_lt.mpr (le_trans (by norm_num) h1)),
        if_neg (not_lt.mpr (le_trans (by norm_num) h1)),
        if_neg (not_lt.mpr h1), if_pos h2]
    · intro h1
      unfold selectMainBar
      rw [if_neg (not_lt.mpr (le_trans (by norm_num) h1)),
        if_neg (not_lt.mpr (le_trans (by norm_num) h1)),
        if_neg (not_lt.mpr (le_trans (by norm_num) h1)),
        if_neg (not_lt.mpr h1)]
  · unfold selectMainBar
    rw [if_neg (by norm_num), if_pos (by norm_num)]

/-- Counterexample to claim C4: at the boundary As = 226 the bar
selection yields 2T16 Bottom, not the lower 2T12 Bottom the claim
asserts. -/
theorem boundary_tie_not_lower_bar :
    selectMainBar 226 = "2T16 Bottom" ∧
    ("2T16 Bottom" : String) ≠ "2T12 Bottom" := by
  constructor
  · unfold selectMainBar
    rw [if_neg (by norm_num), if_pos (by norm_num)]
  · decide

/-- Claim C4 as amended: at a bar-table boundary value (226, 402, 603
or 942) the selection picks the larger of the two adjacent bars, since
the strict upper comparison of each row excludes its own boundary. -/
theorem boundary_tie_selects_higher_bar :
    selectMainBar 226 = "2T16 Bottom" ∧
    selectMainBar 402 = "3T16 Bottom" ∧
    selectMainBar 603 = "3T20 Bottom" ∧
    selectMainBar 942 = "4T20 Bottom" := by
  refine ⟨?_, ?_, ?_, ?_⟩
  · unfold selectMainBar
    rw [if_neg (by norm_num), if_pos (by norm_num)]
  · unfold selectMainBar
    rw [if_neg (by norm_num), if_neg (by norm_num), if_pos (by norm_num)]
  · unfold selectMainBar
    rw [if_neg (by norm_num), if_neg (by norm_num), if_neg (by norm_num),
      if_pos (by norm_num)]
  · unfold selectMainBar
    rw [if_neg (by norm_num), if_neg (by norm_num), if_neg (by norm_num),
      if_neg (by norm_num)]

/-- Claim C7: the Column Stage verdict is SAFE iff axialLoad <
capacity with strict inequality (equality is UNSAFE), and the
simplified-mode capacity is (0.35*fcu*Ac + 0.67*460*Asc)/1000 with
Ac = 200*200 and Asc = 0.008*Ac. -/
theorem column_verdict_strict (axialLoad fcu : ℝ) :
    (colStatus axialLoad fcu = "SAFE" ↔ axialLoad < colCapacity fcu) ∧
    colStatus (colCapacity fcu) fcu = "UNSAFE" ∧
    colCapacity fcu =
      (0.35 * fcu * (200 * 200) + 0.67 * 460 * (0.008 * (200 * 200))) /
        1000 := by
  refine ⟨⟨?_, ?_⟩, ?_, ?_⟩
  · intro hs
    by_contra hlt
    unfold colStatus at hs
    rw [if_neg hlt] at hs
    exact absurd hs (by decide)
  · intro h
    unfold colStatus
    rw [if_pos h]
  · unfold colStatus
    rw [if_neg (lt_irrefl _)]
  · unfold colCapacity colAsc colAc colSize FY
    ring

/-- Claim C8: the Beam Stage yields no result exactly when the span is
missing or non-numeric (parsed to none) or non-positive; being a total
function into an Option it never throws and never returns a partial
result. -/
theorem beamDesign_none_iff_invalid_span (inp : BeamInputs) :
    beamDesign inp = none ↔
      inp.span = none ∨ ∃ L, inp.span = some L ∧ L ≤ 0 := by
  rcases hs : inp.span with _ | L
  · simp [beamDesign, hs]
  · by_cases hL : L ≤ 0
    · simp [beamDesign, hs, hL]
    · simp [beamDesign, hs, hL]

/-- Helper: a square root is bounded above by any nonnegative y whose
square dominates the radicand. -/
theorem sqrt_le_of_le_sq {x y : ℝ} (hy : 0 ≤ y) (h : x ≤ y ^ 2) :
    Real.sqrt x ≤ y := by
  calc Real.sqrt x ≤ Real.sqrt (y ^ 2) := Real.sqrt_le_sqrt h
    _ = y := Real.sqrt_sq hy

/-- Helper: a nonnegative x whose square is below the radicand is
below the square root. -/
theorem lt_sqrt_of_sq_lt {x y : ℝ} (hx : 0 ≤ x) (h : x ^ 2 < y) :
    x < Real.sqrt y := by
  calc x = Real.sqrt (x ^ 2) := (Real.sqrt_sq hx).symm
    _ < Real.sqrt y := Real.sqrt_lt_sqrt (sq_nonneg x) h

/-- Helper: the footing rounding step at load 500, soil 150:
ceil(sqrt(500/150)*10) = 19, since 1.8 < sqrt(10/3) <= 1.9. -/
theorem footing_ceil_500_150 :
    (⌈Real.sqrt ((500 : ℝ) / 150) * 10⌉ : ℤ) = 19 := by
  rw [Int.ceil_eq_iff]
  have h1 : (1.8 : ℝ) < Real.sqrt (500 / 150) :=
    lt_sqrt_of_sq_lt (by norm_num) (by norm_num)
  have h2 : Real.sqrt ((500 : ℝ) / 150) ≤ 1.9 :=
    sqrt_le_of_le_sq (by norm_num) (by norm_num)
  constructor
  · push_cast
    nlinarith [h1]
  · push_cast
    nlinarith [h2]

/-- Helper: the footing side for load 500 kN on 150 kPa soil is
1.9 m. -/
theorem footingSize_500_150 : footingSize 500 150 = 1.9 := by
  unfold footingSize requiredFootingArea
  rw [footing_ceil_500_150]
  norm_num

/-- Counterexample to claim C5: for soil 150 kPa and load 500 kN the
code computes a footing side of 1.9 m, not the 3.4 m the claim
asserts (the claim rounded the required area instead of its square
root). -/
theorem footing_scenario_side_not_3p4 :
    footingSize 500 150 = 1.9 ∧ (1.9 : ℝ) ≠ 3.4 := by
  exact ⟨footingSize_500_150, by norm_num⟩

/-- Claim C5 as amended: soil 150 kPa and load 500 kN give required
area 500/150 (about 3.333 m^2), footing side 1.9 m, bearing pressure
500/1.9^2 (about 138.5 kPa) and a SAFE footing verdict. -/
theorem footing_scenario_500_150 :
    requiredFootingArea 500 150 = 500 / 150 ∧
    footingSize 500 150 = 1.9 ∧
    actualBearingPressure 500 150 = 500 / (1.9 * 1.9) ∧
    footingStatus 500 150 = "SAFE" := by
  have hsize := footingSize_500_150
  refine ⟨rfl, hsize, ?_, ?_⟩
  · unfold actualBearingPressure
    rw [hsize]
  · unfold footingStatus actualBearingPressure
    rw [hsize]
    rw [if_pos (by norm_num)]

/-- Claim C6: for a fixed positive axial load the footing side is
antitone in the soil bearing capacity. -/
theorem footingSize_antitone_in_soil (load s1 s2 : ℝ) (hload : 0 < load)
    (h1 : 0 < s1) (h12 : s1 ≤ s2) :
    footingSize load s2 ≤ footingSize load s1 := by
  have h2 : 0 < s2 := lt_of_lt_of_le h1 h12
  have hdiv : load / s2 ≤ load / s1 := by
    rw [div_le_div_iff h2 h1]
    exact mul_le_mul_of_nonneg_left h12 hload.le
  have hsq : Real.sqrt (load / s2) ≤ Real.sqrt (load / s1) :=
    Real.sqrt_le_sqrt hdiv
  have hmul : Real.sqrt (load / s2) * 10 ≤ Real.sqrt (load / s1) * 10 :=
    mul_le_mul_of_nonneg_right hsq (by norm_num)
  have hceil :
      (⌈Real.sqrt (load / s2) * 10⌉ : ℤ) ≤ ⌈Real.sqrt (load / s1) * 10⌉ :=
    Int.ceil_mono hmul
  have hcast :
      ((⌈Real.sqrt (load / s2) * 10⌉ : ℤ) : ℝ) ≤
        ((⌈Real.sqrt (load / s1) * 10⌉ : ℤ) : ℝ) := by
    exact_mod_cast hceil
  unfold footingSize requiredFootingArea
  exact (div_le_div_right (by norm_num)).mpr hcast

/-- Witness for C6 at load 500, soil capacities 150 and 300. -/
theorem footingSize_antitone_in_soil_witness :
    footingSize 500 300 ≤ footingSize 500 150 :=
  footingSize_antitone_in_soil 500 150 300 (by norm_num) (by norm_num)
    (by norm_num)

/-- Claim C10: for every positive load and positive soil capacity the
footing verdict is SAFE: the side is rounded up, so the recomputed
bearing pressure never exceeds the soil capacity and the UNSAFE branch
is unreachable. -/
theorem footing_always_safe (load soil : ℝ) (hload : 0 < load)
    (hsoil : 0 < soil) : footingStatus load soil = "SAFE" := by
  have ha : 0 < load / soil := div_pos hload hsoil
  have hs : 0 < Real.sqrt (load / soil) := Real.sqrt_pos.mpr ha
  have hle : Real.sqrt (load / soil) ≤ footingSize load soil := by
    unfold footingSize requiredFootingArea
    have hup : Real.sqrt (load / soil) * 10 ≤
        ((⌈Real.sqrt (load / soil) * 10⌉ : ℤ) : ℝ) := Int.le_ceil _
    calc Real.sqrt (load / soil) = Real.sqrt (load / soil) * 10 / 10 := by
          ring
      _ ≤ ((⌈Real.sqrt (load / soil) * 10⌉ : ℤ) : ℝ) / 10 :=
          (div_le_div_right (by norm_num)).mpr hup
  have hsizepos : 0 < footingSize load soil := lt_of_lt_of_le hs hle
  have hsq : load / soil ≤ footingSize load soil * footingSize load soil := by
    calc load / soil = Real.sqrt (load / soil) * Real.sqrt (load / soil) :=
          (Real.mul_self_sqrt ha.le).symm
      _ ≤ footingSize load soil * footingSize load soil :=
          mul_le_mul hle hle hs.le hsizepos.le
  have hpress : actualBearingPressure load soil ≤ soil := by
    unfold actualBearingPressure
    rw [div_le_iff (by positivity)]
    have hcancel : soil * (load / soil) = load := by
      field_simp
    calc load = soil * (load / soil) := hcancel.symm
      _ ≤ soil * (footingSize load soil * footingSize load soil) :=
          mul_le_mul_of_nonneg_left hsq hsoil.le
  unfold footingStatus
  rw [if_pos hpress]

/-- Witness for C10 at load 500, soil 150. -/
theorem footing_always_safe_witness : footingStatus 500 150 = "SAFE" :=
  footing_always_safe 500 150 (by norm_num) (by norm_num)

/-- Helper: the auto-depth rounding at span 4 m:
ceil((4*1000/14)/25) = 12. -/
theorem ceil_depth_span4 : (⌈((4 : ℝ) * 1000 / 14) / 25⌉ : ℤ) = 12 := by
  rw [Int.ceil_eq_iff]
  constructor
  · push_cast
    norm_num
  · push_cast
    norm_num

/-- Helper: the auto-width rounding at depth 300 mm:
ceil((300/2.5)/25) = 5. -/
theorem ceil_width_depth300 : (⌈((300 : ℝ) / 2.5) / 25⌉ : ℤ) = 5 := by
  rw [Int.ceil_eq_iff]
  constructor
  · push_cast
    norm_num
  · push_cast
    norm_num

/-- Helper: the scenario resolves the omitted depth to 300 mm. -/
theorem scenario_depth : beamH scenario 4 = 300 := by
  show jsOr scenario.depth (autoDepth 4) = 300
  have hnone : scenario.depth = none := rfl
  rw [hnone]
  show autoDepth 4 = 300
  unfold autoDepth
  rw [ceil_depth_span4]
  norm_num

/-- Helper: the scenario resolves the omitted width to 150 mm. -/
theorem scenario_width : beamB scenario 4 = 150 := by
  show jsOr scenario.width (autoWidth (beamH scenario 4)) = 150
  rw [scenario_depth]
  have hnone : scenario.width = none := rfl
  rw [hnone]
  show autoWidth 300 = 150
  unfold autoWidth
  rw [ceil_width_depth300]
  rw [max_eq_left (by norm_num)]

/-- Helper: the scenario ultimate UDL is 36.432 kN/m. -/
theorem scenario_udl : beamUDL scenario 4 = 36.432 := by
  unfold beamUDL
  rw [scenario_width, scenario_depth]
  have h1 : scenario.tributaryWidth = 3 := rfl
  have h2 : scenario.wallHeight = 3 := rfl
  have h3 : scenario.liveLoad = 1.5 := rfl
  rw [h1, h2, h3]
  unfold totalUDL deadLoad selfWeight CONCRETE_DENSITY SLAB_DL_UNIT
    WALL_DL_UNIT GAMMA_G GAMMA_Q
  norm_num

/-- Helper: full evaluation of the Beam Stage on the spec scenario:
depth 300, width 150, moment and reaction 72.864, and the kernel in
its flexural-UNSAFE branch (K is about 0.294 > 0.156), so every kernel
field keeps its default. -/
theorem scenario_core :
    beamDesign scenario =
      some
        { width := 150
          depth := 300
          moment := 72.864
          reaction := 72.864
          check :=
            { status := "UNSAFE"
              mainBar := "None"
              asRequired := 0
              shearLinks := "R6-250" } } := by
  have hspan : scenario.span = some 4 := rfl
  simp only [beamDesign, hspan]
  rw [if_neg (by norm_num : ¬(4 : ℝ) ≤ 0)]
  rw [scenario_width, scenario_depth, scenario_udl]
  have hfcu : scenario.fcu = 25 := rfl
  rw [hfcu]
  have hM : midspanMoment 36.432 4 = 72.864 := by
    unfold midspanMoment
    norm_num
  have hV : endReaction 36.432 4 = 72.864 := by
    unfold endReaction
    norm_num
  have hd : effectiveDepth 300 = 257 := by
    unfold effectiveDepth COVER
    norm_num
  rw [hM, hV, hd]
  have hKbig : ¬ Kfactor 72.864 150 257 25 ≤ 0.156 := by
    unfold Kfactor
    norm_num
  have hflex : flexStatus 72.864 150 257 25 ≠ "SAFE" := by
    unfold flexStatus
    rw [if_neg hKbig]
    decide
  have hsec :
      sectionCheck 72.864 72.864 150 300 257 25 =
        { status := "UNSAFE"
          mainBar := "None"
          asRequired := 0
          shearLinks := "R6-250" } := by
    unfold sectionCheck
    rw [if_neg hflex]
  rw [hsec]

/-- Counterexample to claim C9: on the spec scenario (span 4 m,
auto-derived geometry, tributary width 3 m, wall height 3 m, live load
1.5 kPa, fcu 25) the Beam Stage verdict is UNSAFE with main bar
"None", not SAFE with a non-"None" bar. -/
theorem beam_scenario_not_safe :
    ((beamDesign scenario).map (fun r => (r.check.status, r.check.mainBar)) =
      some ("UNSAFE", "None")) ∧
    ¬ ∃ r, beamDesign scenario = some r ∧ r.check.status = "SAFE" := by
  constructor
  · rw [scenario_core]
    rfl
  · rintro ⟨r, hr, hs⟩
    rw [scenario_core] at hr
    injection hr with h
    rw [← h] at hs
    exact (by decide : ("UNSAFE" : String) ≠ "SAFE") hs

/-- Claim C9 as amended: the spec scenario resolves the omitted
geometry to depth 300 mm and width 150 mm, but the resulting K of
about 0.294 exceeds 0.156, so the verdict is UNSAFE and the main-bar
callout stays "None". -/
theorem beam_scenario_unsafe_none :
    (beamDesign scenario).map
        (fun r => (r.width, r.depth, r.check.status, r.check.mainBar)) =
      some (150, 300, "UNSAFE", "None") := by
  rw [scenario_core]
  rfl

end BeamSafe
